import Mathlib

/-!
Verification of the row-processing pipeline of the `gen_ai` repository
(`main.py`, `app/gemini_handler.py`, `app/xls_handler.py`).

Python strings are embedded as `List Char` (`Str`).  Python exceptions are
embedded as `Except` error values.  External collaborators (the Gemini SDK
response object, the pandas readers/writers, the filesystem, the environment)
are embedded as explicit data passed to the functions that consult them; the
functions themselves are translated line by line from the source.
-/

deriving instance DecidableEq for Except

namespace GenAI

/-- A Python string, embedded as its list of characters. -/
abbrev Str := List Char

/-- One row of the table: an ordered association of column name to cell value
(the view `generate_text_from_row` has of a pandas `Series` / `row.to_dict()`). -/
abbrev Record := List (Str × Str)

/-- Dictionary lookup on a record: first binding of the key wins
(models `key in row` / `d[key]` on `row.to_dict()`). -/
def rlookup : Record → Str → Option Str
  | [], _ => none
  | (k, v) :: r, q => if k = q then some v else rlookup r q

/-- Python `str.lower()`, restricted to the ASCII range that the file
extensions in this program use. -/
def pyLower (cs : Str) : Str := cs.map Char.toLower

/-- Python `str.split()` with no argument: split on runs of whitespace,
dropping empty pieces. -/
def pySplit (cs : Str) : List Str :=
  (cs.splitOnP Char.isWhitespace).filter (fun t => !t.isEmpty)

/-- Membership in the character set passed to `str.strip` at
`gemini_handler.py` line 54: the two brace characters. -/
def isBraceChar (c : Char) : Bool := c = '\x7b' || c = '\x7d'

/-- Python `col.strip` over the two brace characters: remove any leading and
trailing braces (and only those) from a token. -/
def pyStripBraces (cs : Str) : Str :=
  ((cs.dropWhile isBraceChar).reverse.dropWhile isBraceChar).reverse

/-- `gemini_handler.py` line 54: the keys the pre-check believes the template
requires - whitespace-separated tokens containing both a `\x7b` and a `\x7d`,
with braces stripped from both ends only. -/
def requiredKeys (tmpl : Str) : List Str :=
  ((pySplit tmpl).filter (fun tok => tok.contains '\x7b' && tok.contains '\x7d')).map
    pyStripBraces

/-- `gemini_handler.py` lines 55-57: first required key absent from the row
(the loop raises `KeyError` at the first missing one). -/
def firstMissingKey (tmpl : Str) (row : Record) : Option Str :=
  (requiredKeys tmpl).find? (fun k => (rlookup row k).isNone)

/-- Outcome of `str.format(**row)`: either the substituted string, a
`KeyError` for a named field absent from the mapping, or any other formatting
failure (`ValueError` for stray braces, `IndexError` for positional fields,
unmodelled field accessors). -/
inductive FmtErr where
  | keyNotFound (name : Str)
  | otherFmtErr
  deriving DecidableEq

/-- Scanner state for `str.format`: in literal text, or inside a replacement
field with the (reversed) name characters read so far. -/
inductive FmtMode where
  | text
  | field (acc : Str)
  deriving DecidableEq

/-- Characters that end or reject the plain-name subset of `str.format` field
names modelled here.  Python gives conversion (`!`), format-spec (`:`),
attribute (`.`) and index (`[`/`]`) accessors a meaning of their own; this
embedding restricts the template language to plain `\x7bname\x7d` fields and
classifies a field using these characters as `otherFmtErr`. -/
def nameStopChar (c : Char) : Bool :=
  c = '.' || c = '[' || c = ']' || c = ':' || c = '!' || c = '\x7b'

/-- A field name Python would resolve positionally rather than by keyword:
empty (auto-numbering) or all digits.  With only keyword arguments supplied,
such a field raises `IndexError`, folded into `otherFmtErr`. -/
def autoOrPositional (n : Str) : Bool := n.isEmpty || n.all Char.isDigit

/-- Core of Python `tmpl.format(**row)` on the plain-name subset: doubled
braces are literals, `\x7bname\x7d` is looked up in the row (`KeyError` when
absent), a stray single brace or an unmodelled/positional field is
`otherFmtErr`. -/
def fmtRun (row : Record) : Str → FmtMode → Except FmtErr Str
  | [], .text => .ok []
  | [], .field _ => .error .otherFmtErr
  | '\x7b' :: '\x7b' :: rest, .text => (fmtRun row rest .text).map (fun s => '\x7b' :: s)
  | '\x7d' :: '\x7d' :: rest, .text => (fmtRun row rest .text).map (fun s => '\x7d' :: s)
  | '\x7b' :: rest, .text => fmtRun row rest (.field [])
  | '\x7d' :: _, .text => .error .otherFmtErr
  | c :: rest, .text => (fmtRun row rest .text).map (fun s => c :: s)
  | '\x7d' :: rest, .field acc =>
    let name := acc.reverse
    if autoOrPositional name then .error .otherFmtErr
    else
      match rlookup row name with
      | none => .error (.keyNotFound name)
      | some v => (fmtRun row rest .text).map (fun s => v ++ s)
  | c :: rest, .field acc =>
    if nameStopChar c then .error .otherFmtErr
    else fmtRun row rest (.field (c :: acc))

/-- Python `tmpl.format(**row.to_dict())` (`gemini_handler.py` line 59). -/
def pyFormat (row : Record) (tmpl : Str) : Except FmtErr Str := fmtRun row tmpl .text

/-- The named placeholders of a template: the field names the `fmtRun` scanner
extracts, independent of any row (stopping where the scan would fail). -/
def scanRun : Str → FmtMode → List Str
  | [], _ => []
  | '\x7b' :: '\x7b' :: rest, .text => scanRun rest .text
  | '\x7d' :: '\x7d' :: rest, .text => scanRun rest .text
  | '\x7b' :: rest, .text => scanRun rest (.field [])
  | '\x7d' :: _, .text => []
  | _ :: rest, .text => scanRun rest .text
  | '\x7d' :: rest, .field acc =>
    let name := acc.reverse
    if autoOrPositional name then [] else name :: scanRun rest .text
  | c :: rest, .field acc =>
    if nameStopChar c then [] else scanRun rest (.field (c :: acc))

/-- The placeholder names a template references. -/
def scanNames (tmpl : Str) : List Str := scanRun tmpl .text

/-- What the rendering step of `generate_text_from_row` can raise:
`KeyError` (lines 55-57 and 60-61) or `ValueError` (lines 62-63). -/
inductive RenderErr where
  | keyErr
  | valueErr
  deriving DecidableEq

/-- The rendering step of `generate_text_from_row` (`gemini_handler.py`
lines 47-63): the pre-check over `requiredKeys` raises `KeyError` at the
first missing key; otherwise `format` runs, its `KeyError` is re-raised as
`KeyError` (line 61) and any other failure as `ValueError` (line 63). -/
def renderStep (tmpl : Str) (row : Record) : Except RenderErr Str :=
  match firstMissingKey tmpl row with
  | some _ => .error .keyErr
  | none =>
    match pyFormat row tmpl with
    | .ok s => .ok s
    | .error (.keyNotFound _) => .error .keyErr
    | .error .otherFmtErr => .error .valueErr

/-- Python `str.strip()` with no argument: remove leading and trailing
whitespace. -/
def pyStrip (cs : Str) : Str :=
  ((cs.dropWhile Char.isWhitespace).reverse.dropWhile Char.isWhitespace).reverse

/-- The `prompt_feedback` object of a Gemini response; `blockReason` is the
stringified `block_reason` field, empty when falsy. -/
structure Feedback where
  blockReason : Str
  deriving DecidableEq

/-- The `content` object of a candidate: the text of its `parts`. -/
structure Content where
  parts : List Str
  deriving DecidableEq

/-- One candidate of a Gemini response; `content` may be `None`. -/
structure Candidate where
  content : Option Content
  deriving DecidableEq

/-- A Gemini `generate_content` response as `generate_text_from_row` probes
it: `parts` (text of `response.parts`), the `text` attribute (`none` when the
attribute is absent), `prompt_feedback` and `candidates`. -/
structure Response where
  parts : List Str
  textAttr : Option Str
  promptFeedback : Option Feedback
  candidates : List Candidate
  deriving DecidableEq

/-- `gemini_handler.py` lines 72-74 (and identically lines 97-99): the
block-reason fragment of the error message - present exactly when
`prompt_feedback` exists and its `block_reason` is truthy. -/
def blockReasonStr (resp : Response) : Str :=
  match resp.promptFeedback with
  | none => []
  | some fb =>
    if fb.blockReason.isEmpty then []
    else " (Reason: ".toList ++ fb.blockReason ++ ")".toList

/-- `gemini_handler.py` lines 77-79: the text of the first part of the first
candidate's content, when candidates exist, content is truthy and its parts
are non-empty; `none` otherwise. -/
def firstCandidateText (resp : Response) : Option Str :=
  match resp.candidates with
  | [] => none
  | c :: _ =>
    match c.content with
    | none => none
    | some ct =>
      match ct.parts with
      | [] => none
      | p :: _ => some p

/-- The message of the `GeminiAPIError` raised at `gemini_handler.py`
line 84. -/
def emptyResponseMsg (resp : Response) (fp : Str) : Str :=
  "Gemini API returned an empty response or content was blocked".toList ++
    blockReasonStr resp ++ ". No text generated for prompt: '".toList ++ fp ++ "'".toList

/-- The message of the `GeminiAPIError` raised at `gemini_handler.py`
line 100. -/
def whitespaceTextMsg (resp : Response) (fp : Str) : Str :=
  "Gemini API returned empty or whitespace text".toList ++ blockReasonStr resp ++
    " for prompt: '".toList ++ fp ++ "'".toList

/-- `gemini_handler.py` lines 88-92: `generated_text` starts empty, takes
`response.text` when that attribute exists and is truthy, else the first
candidate's first part when the candidate chain is truthy. -/
def mainPathText (resp : Response) : Str :=
  match resp.textAttr with
  | some t =>
    if !t.isEmpty then t
    else
      match firstCandidateText resp with
      | some u => u
      | none => []
  | none =>
    match firstCandidateText resp with
    | some u => u
    | none => []

/-- `gemini_handler.py` lines 69-102: response-shape normalization.  With
`response.parts` empty, return the first candidate's text when truthy, else
raise the empty-response `GeminiAPIError` (line 84).  Otherwise take the
main-path text and raise the whitespace `GeminiAPIError` (line 100) when its
strip is empty, else return it unstripped. -/
def extractText (resp : Response) (fp : Str) : Except Str Str :=
  if resp.parts.isEmpty then
    match firstCandidateText resp with
    | some t => if !t.isEmpty then .ok t else .error (emptyResponseMsg resp fp)
    | none => .error (emptyResponseMsg resp fp)
  else
    let generated := mainPathText resp
    if (pyStrip generated).isEmpty then .error (whitespaceTextMsg resp fp)
    else .ok generated

/-- What the remote `model.generate_content` call does on one invocation:
return a response object, raise a Google API error
(`gemini_handler.py` lines 104-106), or raise some other exception
(lines 107-110). -/
inductive ApiOutcome where
  | returns (resp : Response)
  | raisesGoogleErr (msg : Str)
  | raisesOtherExc (msg : Str)

/-- An exception escaping `generate_text_from_row`: `GeminiAPIError`,
`KeyError` (line 61) or `ValueError` (line 63). -/
inductive PyExc where
  | geminiAPIErr (msg : Str)
  | keyErr
  | valueErr
  deriving DecidableEq

/-- Message of the wrapping `GeminiAPIError` at `gemini_handler.py`
line 110. -/
def unexpectedWrapMsg (inner fp : Str) : Str :=
  "An unexpected error occurred during text generation with Gemini API: ".toList ++
    inner ++ ". Prompt: '".toList ++ fp ++ "'".toList

/-- Message of the `GeminiAPIError` at `gemini_handler.py` line 106. -/
def apiCallFailedMsg (inner fp : Str) : Str :=
  "Gemini API call failed: ".toList ++ inner ++ ". Prompt: '".toList ++ fp ++ "'".toList

/-- `generate_text_from_row` (`gemini_handler.py` lines 31-110): render the
prompt (lines 47-63), then call the API and normalize the response
(lines 65-110).  A `GeminiAPIError` raised inside the `try` at line 84 or
line 100 is itself caught by the catch-all at line 109 and re-wrapped with
the line-110 message. -/
def generate_text_from_row (row : Record) (tmpl : Str) (api : ApiOutcome) :
    Except PyExc Str :=
  match renderStep tmpl row with
  | .error .keyErr => .error .keyErr
  | .error .valueErr => .error .valueErr
  | .ok fp =>
    match api with
    | .raisesGoogleErr m => .error (.geminiAPIErr (apiCallFailedMsg m fp))
    | .raisesOtherExc m => .error (.geminiAPIErr (unexpectedWrapMsg m fp))
    | .returns resp =>
      match extractText resp fp with
      | .ok s => .ok s
      | .error m => .error (.geminiAPIErr (unexpectedWrapMsg m fp))

/-- `main.py` lines 52-65: the value appended for one row - the generated
text on success, else the sentinel chosen by the `except` chain
(`GeminiAPIError` first, then `KeyError`, then the catch-all). -/
def rowResult (x : Except PyExc Str) : Str :=
  match x with
  | .ok s => s
  | .error (.geminiAPIErr _) => "ERROR_API".toList
  | .error .keyErr => "ERROR_KEY".toList
  | .error .valueErr => "ERROR_UNEXPECTED".toList

/-- The row loop of `main.py` lines 48-65 from row index `i`: one appended
value per row, whatever the per-row outcome. -/
def processFrom (tmpl : Str) (api : Nat → ApiOutcome) : Nat → List Record → List Str
  | _, [] => []
  | i, r :: rs =>
    rowResult (generate_text_from_row r tmpl (api i)) :: processFrom tmpl api (i + 1) rs

/-- The whole row loop of `main.py` lines 48-65. -/
def processRows (rows : List Record) (tmpl : Str) (api : Nat → ApiOutcome) : List Str :=
  processFrom tmpl api 0 rows

/-- An in-memory table (pandas `DataFrame`): ordered column names plus the
ordered rows. -/
structure Table where
  cols : List Str
  rows : List Record
  deriving DecidableEq

/-- Assignment of one key of a row by `df[name] = results`: overwrite the
binding in place when the key exists, else append it at the end. -/
def setKey (r : Record) (k v : Str) : Record :=
  if (rlookup r k).isSome then r.map (fun p => if p.1 = k then (k, v) else p)
  else r ++ [(k, v)]

/-- `main.py` line 69, `df[args.new_column_name] = results`: overwrite the
column when the name exists (keeping its position), else append it as the
last column; each row receives its positional value. -/
def setColumn (t : Table) (name : Str) (vals : List Str) : Table :=
  { cols := if t.cols.contains name then t.cols else t.cols ++ [name]
    rows := (t.rows.zip vals).map (fun rv => setKey rv.1 name rv.2) }

/-- `main.py` line 68: the pre-assignment consistency check
`len(results) == len(df)`. -/
def resultsMatch (df : Table) (results : List Str) : Bool :=
  results.length == df.rows.length

/-- The cell lines `df.to_csv(path, index=False)` emits: the header is the
table's columns in order, each row's cells follow in that order, and no
index/row-number column is prepended. -/
def saveCsvLines (t : Table) : List (List Str) :=
  t.cols :: t.rows.map (fun r => t.cols.map (fun c => (rlookup r c).getD []))

/-- `path.lower().endswith(suffix)`. -/
def endsWithLower (path suffix : Str) : Bool := suffix.isSuffixOf (pyLower path)

/-- The literal suffix `.csv` of `xls_handler.py` lines 18 and 51. -/
def csvExt : Str := ".csv".toList

/-- The literal suffix `.xlsx` of `xls_handler.py` line 53. -/
def xlsxExt : Str := ".xlsx".toList

/-- The literal suffix `.xls` of `xls_handler.py` line 55. -/
def xlsExt : Str := ".xls".toList

/-- The serializers `save_xls` can dispatch to. -/
inductive SaveFmt where
  | csv
  | xlsx
  | xls
  deriving DecidableEq

/-- An exception raised inside the `try` of `save_xls`
(`xls_handler.py` lines 50-63): an `IOError`/`OSError` from the writer, or
the `ValueError` of line 63 for an unsupported extension. -/
inductive SaveInnerErr where
  | ioOsErr
  | valueErrUnsupported
  deriving DecidableEq

/-- An exception escaping `save_xls`: the `TypeError` of line 48 or the
`IOError` re-raised at lines 65-68. -/
inductive SaveErr where
  | typeErr
  | ioErr
  deriving DecidableEq

/-- The extension dispatch of `xls_handler.py` lines 51-59: lowercased
suffix `.csv`, then `.xlsx`, then `.xls`; `none` for anything else. -/
def saveFormatOf (path : Str) : Option SaveFmt :=
  if endsWithLower path csvExt then some .csv
  else if endsWithLower path xlsxExt then some .xlsx
  else if endsWithLower path xlsExt then some .xls
  else none

/-- The `try` body of `save_xls` (`xls_handler.py` lines 50-63): dispatch on
the extension and run the writer (`writeOk` says whether the underlying
filesystem write succeeds); an unrecognized extension raises the
`ValueError` of line 63 inside the `try`. -/
def saveTryBody (path : Str) (writeOk : Bool) : Except SaveInnerErr SaveFmt :=
  match saveFormatOf path with
  | some f => if writeOk then .ok f else .error .ioOsErr
  | none => .error .valueErrUnsupported

/-- `save_xls` (`xls_handler.py` lines 35-68): a non-DataFrame input raises
`TypeError` before the `try` (line 48); every exception from the `try` body -
including the line-63 `ValueError` - is wrapped into an `IOError` by the
`except` clauses at lines 65-68. -/
def save_xls (isDataFrame : Bool) (path : Str) (writeOk : Bool) :
    Except SaveErr SaveFmt :=
  if !isDataFrame then .error .typeErr
  else
    match saveTryBody path writeOk with
    | .ok f => .ok f
    | .error .ioOsErr => .error .ioErr
    | .error .valueErrUnsupported => .error .ioErr

/-- Byte content of a file as the pandas readers see it: a zero-byte file, a
well-formed table (possibly with zero data rows), or unparseable bytes. -/
inductive FileContent where
  | emptyFile
  | tableFile (header : List Str) (rows : List Record)
  | corruptFile
  deriving DecidableEq

/-- An error from a pandas reader as `load_xls` distinguishes them:
`pd.errors.EmptyDataError`, or any other parse failure (a `ValueError`). -/
inductive PdReadErr where
  | emptyDataErr
  | parseValueErr
  deriving DecidableEq

/-- Models the pandas `read_csv` collaborator: a zero-byte file raises
`EmptyDataError` (no columns to parse); unparseable bytes raise a
`ParserError` (a `ValueError` subclass); well-formed content yields a
DataFrame even when it has zero data rows. -/
def read_csv : FileContent → Except PdReadErr Table
  | .emptyFile => .error .emptyDataErr
  | .tableFile h rs => .ok ⟨h, rs⟩
  | .corruptFile => .error .parseValueErr

/-- Models the pandas `read_excel` collaborator: a zero-byte or unparseable
file raises a `ValueError` (the format cannot be determined); well-formed
content yields a DataFrame even when it has zero data rows. -/
def read_excel : FileContent → Except PdReadErr Table
  | .emptyFile => .error .parseValueErr
  | .tableFile h rs => .ok ⟨h, rs⟩
  | .corruptFile => .error .parseValueErr

/-- The reader dispatch of `xls_handler.py` lines 18-22: a lowercased `.csv`
suffix selects `read_csv`, everything else is attempted as a spreadsheet. -/
inductive LoadFmt where
  | csv
  | excel
  deriving DecidableEq

/-- The extension dispatch of `load_xls`. -/
def loadFormatOf (path : Str) : LoadFmt :=
  if endsWithLower path csvExt then .csv else .excel

/-- An exception escaping `load_xls`: `FileNotFoundError` (lines 24-25), the
empty-file `ValueError` (lines 26-27) or the invalid/corrupt `ValueError`
(lines 28-31). -/
inductive LoadErr where
  | fileNotFoundErr
  | valueEmptyErr
  | valueCorruptErr
  deriving DecidableEq

/-- `load_xls` (`xls_handler.py` lines 3-32).  The filesystem is the map
`fs` from path to file content; a missing path makes the reader raise
`FileNotFoundError`, re-raised at lines 24-25.  `EmptyDataError` becomes the
empty-file `ValueError` (lines 26-27); any other reader `ValueError` becomes
the corrupt-file `ValueError` (lines 28-31).  No network operation exists
anywhere in this function. -/
def load_xls (fs : Str → Option FileContent) (path : Str) : Except LoadErr Table :=
  match fs path with
  | none => .error .fileNotFoundErr
  | some content =>
    let res :=
      match loadFormatOf path with
      | .csv => read_csv content
      | .excel => read_excel content
    match res with
    | .ok t => .ok t
    | .error .emptyDataErr => .error .valueEmptyErr
    | .error .parseValueErr => .error .valueCorruptErr

/-- An exception escaping `configure_gemini`: the `ValueError` of
`gemini_handler.py` lines 18-22, or the `GeminiAPIError` of line 28 when the
SDK rejects the key. -/
inductive ConfigErr where
  | valueErrNoKey
  | geminiAPIErrSdk
  deriving DecidableEq

/-- `configure_gemini` (`gemini_handler.py` lines 10-28): `os.getenv` yields
`none` when `GEMINI_API_KEY` is unset; an unset or empty (falsy) key raises
`ValueError`; otherwise `genai.configure` runs and its failure is wrapped as
`GeminiAPIError` (`sdkOk` says whether the SDK accepts the key). -/
def configure_gemini (env : Option Str) (sdkOk : Bool) : Except ConfigErr Unit :=
  match env with
  | none => .error .valueErrNoKey
  | some k =>
    if k.isEmpty then .error .valueErrNoKey
    else if sdkOk then .ok () else .error .geminiAPIErrSdk

/-- Observable outcome of one run of `main`: the exit code, the table
written to the output file (`none` when no file is written), and how many
rows the loop processed. -/
structure MainOutcome where
  exitCode : Nat
  written : Option Table
  rowsProcessed : Nat
  deriving DecidableEq

/-- `main` (`main.py` lines 8-85): configure (exit 1 on failure), load
(exit 1 on failure), process every row, run the `len(results) == len(df)`
check (exit 1 on mismatch), assign the result column, save (exit 1 on
failure, exit 0 on success). -/
def mainModel (env : Option Str) (sdkOk : Bool) (fs : Str → Option FileContent)
    (inputPath outputPath tmpl newCol : Str) (api : Nat → ApiOutcome)
    (writeOk : Bool) : MainOutcome :=
  match configure_gemini env sdkOk with
  | .error _ => ⟨1, none, 0⟩
  | .ok _ =>
    match load_xls fs inputPath with
    | .error _ => ⟨1, none, 0⟩
    | .ok df =>
      let results := processRows df.rows tmpl api
      if resultsMatch df results then
        let df2 := setColumn df newCol results
        match save_xls true outputPath writeOk with
        | .ok _ => ⟨0, some df2, df.rows.length⟩
        | .error _ => ⟨1, none, df.rows.length⟩
      else ⟨1, none, df.rows.length⟩

/-! Helper lemmas. -/

theorem processFrom_length (tmpl : Str) (api : Nat → ApiOutcome) :
    ∀ (rows : List Record) (i : Nat), (processFrom tmpl api i rows).length = rows.length
  | [], _ => rfl
  | _ :: rs, i => by
    simp only [processFrom, List.length_cons, processFrom_length tmpl api rs (i + 1)]

theorem processFrom_get (tmpl : Str) (api : Nat → ApiOutcome) :
    ∀ (rows : List Record) (i j : Nat),
      (processFrom tmpl api i rows)[j]? =
        (rows[j]?).map (fun r => rowResult (generate_text_from_row r tmpl (api (i + j))))
  | [], _, _ => by simp [processFrom]
  | r :: rs, i, 0 => by simp [processFrom]
  | r :: rs, i, j + 1 => by
    have harith : i + 1 + j = i + (j + 1) := by omega
    simp only [processFrom, List.getElem?_cons_succ, Option.map,
      processFrom_get tmpl api rs (i + 1) j, harith]

/-! Theorems for the claims. -/

/-- C1: for a record whose columns are exactly the template's placeholder
names, the rendering step of `generate_text_from_row` is claimed to succeed
and substitute every placeholder.  On the spec's own punctuation-adjacent
template the code instead raises `KeyError`: the pre-check of line 54 strips
braces only from token ends, turning the token around the first placeholder
into the non-column key, even though `format` itself would have succeeded. -/
theorem spec_C1_render_rejects_valid_template :
    renderStep "Ad for \x7bname\x7d: \x7bdesc\x7d".toList
        [("name".toList, "Widget".toList), ("desc".toList, "Blue widget".toList)] =
      .error .keyErr ∧
    pyFormat [("name".toList, "Widget".toList), ("desc".toList, "Blue widget".toList)]
        "Ad for \x7bname\x7d: \x7bdesc\x7d".toList =
      .ok "Ad for Widget: Blue widget".toList ∧
    firstMissingKey "Ad for \x7bname\x7d: \x7bdesc\x7d".toList
        [("name".toList, "Widget".toList), ("desc".toList, "Blue widget".toList)] =
      some "name\x7d:".toList := by decide

/-- C2: the row loop yields exactly one value per input record, in input
order, whatever each per-row call does; hence the `len(results) == len(df)`
check of `main.py` line 68 is always true and its `exit(1)` branch cannot be
taken. -/
theorem spec_C2_one_result_per_row (df : Table) (tmpl : Str) (api : Nat → ApiOutcome) :
    (processRows df.rows tmpl api).length = df.rows.length ∧
    resultsMatch df (processRows df.rows tmpl api) = true ∧
    ∀ i : Nat,
      (processRows df.rows tmpl api)[i]? =
        (df.rows[i]?).map (fun r => rowResult (generate_text_from_row r tmpl (api i))) := by
  refine ⟨processFrom_length tmpl api df.rows 0, ?_, ?_⟩
  · simp [resultsMatch, processRows, processFrom_length tmpl api df.rows 0]
  · intro i
    simpa using processFrom_get tmpl api df.rows 0 i

/-- C5: `save_xls` is claimed to raise `ValueError` for an unsupported
extension, distinct from the `IOError` reserved for write failures.  The
`ValueError` of `xls_handler.py` line 63 is raised inside the `try` and
caught by the catch-all at line 67, so the caller sees `IOError`; the
`TypeError` for a non-DataFrame input (line 48, before the `try`) does
behave as claimed. -/
theorem spec_C5_unsupported_wrapped_as_ioerror :
    saveTryBody "out.txt".toList true = .error .valueErrUnsupported ∧
    save_xls true "out.txt".toList true = .error .ioErr ∧
    save_xls false "out.csv".toList true = .error .typeErr := by decide

/-- C7: with the credential variable unset, `configure_gemini` raises
`ValueError` and `main` exits with code 1 before any row is processed and
before any output file is written. -/
theorem spec_C7_missing_key_aborts (sdkOk : Bool) (fs : Str → Option FileContent)
    (inputPath outputPath tmpl newCol : Str) (api : Nat → ApiOutcome) (writeOk : Bool) :
    configure_gemini none sdkOk = .error .valueErrNoKey ∧
    mainModel none sdkOk fs inputPath outputPath tmpl newCol api writeOk =
      ⟨1, none, 0⟩ :=
  ⟨rfl, rfl⟩

/-- C3, counterexample: a malformed template (a stray closing brace) is a
template-format error - the rendering step raises `ValueError` (line 63) -
but the row loop records `ERROR_UNEXPECTED` for it, not the claimed
`ERROR_KEY`: `main.py` maps only `KeyError` to `ERROR_KEY` and its catch-all
takes `ValueError`. -/
theorem spec_C3_counterexample :
    renderStep "\x7d".toList [("name".toList, "Widget".toList)] = .error .valueErr ∧
    rowResult (generate_text_from_row [("name".toList, "Widget".toList)] "\x7d".toList
        (.returns ⟨[], none, none, []⟩)) =
      "ERROR_UNEXPECTED".toList ∧
    "ERROR_UNEXPECTED".toList ≠ "ERROR_KEY".toList := by decide

/-- C3, amended: the per-row sentinel mapping of `main.py` lines 52-65: a
missing-placeholder `KeyError` records `ERROR_KEY`; a template-format
`ValueError` records `ERROR_UNEXPECTED` (it falls to the catch-all); every
failure of the API step - remote error, empty generation, or unexpected
error during generation, all wrapped as `GeminiAPIError` - records
`ERROR_API`; on success the returned text is recorded.  Each case yields a
value, so processing continues with the next record. -/
theorem spec_C3_row_sentinels (row : Record) (tmpl : Str) :
    (renderStep tmpl row = .error .keyErr →
      ∀ api, rowResult (generate_text_from_row row tmpl api) = "ERROR_KEY".toList) ∧
    (renderStep tmpl row = .error .valueErr →
      ∀ api, rowResult (generate_text_from_row row tmpl api) = "ERROR_UNEXPECTED".toList) ∧
    (∀ fp, renderStep tmpl row = .ok fp →
      (∀ m, rowResult (generate_text_from_row row tmpl (.raisesGoogleErr m)) =
        "ERROR_API".toList) ∧
      (∀ m, rowResult (generate_text_from_row row tmpl (.raisesOtherExc m)) =
        "ERROR_API".toList) ∧
      (∀ resp m, extractText resp fp = .error m →
        rowResult (generate_text_from_row row tmpl (.returns resp)) =
          "ERROR_API".toList) ∧
      (∀ resp s, extractText resp fp = .ok s →
        rowResult (generate_text_from_row row tmpl (.returns resp)) = s)) := by
  refine ⟨?_, ?_, ?_⟩
  · intro h api
    simp [generate_text_from_row, h, rowResult]
  · intro h api
    simp [generate_text_from_row, h, rowResult]
  · intro fp h
    refine ⟨fun m => ?_, fun m => ?_, fun resp m hx => ?_, fun resp s hx => ?_⟩
    · simp [generate_text_from_row, h, rowResult]
    · simp [generate_text_from_row, h, rowResult]
    · simp [generate_text_from_row, h, hx, rowResult]
    · simp [generate_text_from_row, h, hx, rowResult]

/-- C3, witness: a well-rendered row whose remote call raises a Google API
error records `ERROR_API`. -/
theorem spec_C3_witness :
    rowResult (generate_text_from_row [("text".toList, "hi".toList)]
        "Summarize: \x7btext\x7d".toList (.raisesGoogleErr [])) =
      "ERROR_API".toList :=
  ((spec_C3_row_sentinels [("text".toList, "hi".toList)]
      "Summarize: \x7btext\x7d".toList).2.2 "Summarize: hi".toList (by decide)).1 []

/-- The filesystem of the C6 counterexample: one CSV file holding a header
line and zero data rows. -/
def fsHeaderOnly : Str → Option FileContent :=
  fun p => if p = "data.csv".toList then some (.tableFile ["a".toList] []) else none

/-- C6, counterexample: a CSV file with a header and zero data rows loads
successfully as a zero-row table - pandas raises `EmptyDataError` only for a
file with no parseable columns - so `load_xls` does return a table for an
input with zero data rows, contrary to the claim. -/
theorem spec_C6_counterexample :
    load_xls fsHeaderOnly "data.csv".toList = .ok ⟨["a".toList], []⟩ ∧
    (⟨["a".toList], []⟩ : Table).rows.length = 0 := by decide

/-- C6, amended: `load_xls` raises `FileNotFoundError` for every path not in
the filesystem (the loader performs no network operation); a zero-byte file
raises the empty-file `ValueError` when read as CSV and the corrupt-file
`ValueError` when read as a spreadsheet; a file with a header and zero data
rows loads successfully as a zero-row table. -/
theorem spec_C6_load_errors (fs : Str → Option FileContent) (path : Str) :
    (fs path = none → load_xls fs path = .error .fileNotFoundErr) ∧
    (loadFormatOf path = .csv → fs path = some .emptyFile →
      load_xls fs path = .error .valueEmptyErr) ∧
    (loadFormatOf path = .excel → fs path = some .emptyFile →
      load_xls fs path = .error .valueCorruptErr) ∧
    (∀ h rs, fs path = some (.tableFile h rs) → load_xls fs path = .ok ⟨h, rs⟩) := by
  refine ⟨fun h => ?_, fun hf h => ?_, fun hf h => ?_, fun hd rs h => ?_⟩
  · simp [load_xls, h]
  · simp [load_xls, h, hf, read_csv]
  · simp [load_xls, h, hf, read_excel]
  · cases hf : loadFormatOf path <;> simp [load_xls, h, hf, read_csv, read_excel]

/-- C6, witness: loading a path absent from the filesystem raises
`FileNotFoundError`. -/
theorem spec_C6_witness :
    load_xls (fun _ => none) "missing.xlsx".toList = .error .fileNotFoundErr :=
  (spec_C6_load_errors (fun _ => none) "missing.xlsx".toList).1 rfl

theorem reason_infix_empty_msg (resp : Response) (fp : Str) (fb : Feedback)
    (h : resp.promptFeedback = some fb) (hne : fb.blockReason.isEmpty = false) :
    fb.blockReason <:+: emptyResponseMsg resp fp := by
  refine ⟨"Gemini API returned an empty response or content was blocked".toList ++
      " (Reason: ".toList,
    ")".toList ++ ". No text generated for prompt: '".toList ++ fp ++ "'".toList, ?_⟩
  simp [emptyResponseMsg, blockReasonStr, h, hne, List.append_assoc]

theorem reason_infix_whitespace_msg (resp : Response) (fp : Str) (fb : Feedback)
    (h : resp.promptFeedback = some fb) (hne : fb.blockReason.isEmpty = false) :
    fb.blockReason <:+: whitespaceTextMsg resp fp := by
  refine ⟨"Gemini API returned empty or whitespace text".toList ++ " (Reason: ".toList,
    ")".toList ++ " for prompt: '".toList ++ fp ++ "'".toList, ?_⟩
  simp [whitespaceTextMsg, blockReasonStr, h, hne, List.append_assoc]

theorem extractText_error_msg (resp : Response) (fp m : Str)
    (h : extractText resp fp = .error m) :
    m = emptyResponseMsg resp fp ∨ m = whitespaceTextMsg resp fp := by
  unfold extractText at h
  by_cases hp : resp.parts.isEmpty <;> simp [hp] at h
  · cases hc : firstCandidateText resp with
    | none => simp [hc] at h; exact Or.inl h.symm
    | some t =>
      by_cases ht : t = [] <;> simp [hc, ht] at h
      exact Or.inl h.symm
  · by_cases hst : pyStrip (mainPathText resp) = [] <;> simp [hst] at h
    exact Or.inr h.symm

/-- C4, counterexample: a response whose text carries trailing whitespace is
returned exactly as the API produced it, unstripped - the strip on line 94
only tests for whitespace-only text and the return on line 102 is the raw
string - so the successfully returned string is not trimmed. -/
theorem spec_C4_counterexample :
    extractText
        ⟨["Hello\n".toList], some "Hello\n".toList, none,
          [⟨some ⟨["Hello\n".toList]⟩⟩]⟩ "p".toList =
      .ok "Hello\n".toList ∧
    pyStrip "Hello\n".toList ≠ "Hello\n".toList := by decide

/-- C4, amended: the response-normalization step either fails with
`GeminiAPIError` - whose message carries the block-reason string whenever the
response metadata has a truthy one - or returns a non-empty (truthy) string;
when `response.parts` is non-empty the returned string is non-empty even
after trimming, but it is returned untrimmed. -/
theorem spec_C4_extract_normalization (resp : Response) (fp : Str) :
    (∀ s, extractText resp fp = .ok s →
      s ≠ [] ∧ (resp.parts.isEmpty = false → pyStrip s ≠ [])) ∧
    (∀ m, extractText resp fp = .error m → ∀ fb, resp.promptFeedback = some fb →
      fb.blockReason.isEmpty = false → fb.blockReason <:+: m) := by
  constructor
  · intro s hs
    unfold extractText at hs
    by_cases hp : resp.parts.isEmpty <;> simp [hp] at hs ⊢
    · cases hc : firstCandidateText resp with
      | none => simp [hc] at hs
      | some t =>
        by_cases ht : t = [] <;> simp [hc, ht] at hs
        rw [← hs]
        exact ht
    · by_cases hst : pyStrip (mainPathText resp) = [] <;> simp [hst] at hs
      subst hs
      refine ⟨fun hnil => hst ?_, hst⟩
      rw [hnil]
      rfl
  · intro m hm fb hfb hne
    rcases extractText_error_msg resp fp m hm with h | h
    · rw [h]; exact reason_infix_empty_msg resp fp fb hfb hne
    · rw [h]; exact reason_infix_whitespace_msg resp fp fb hfb hne

/-- C4, witness: a one-part response returns its (truthy, non-whitespace)
text. -/
theorem spec_C4_witness :
    "ok".toList ≠ [] ∧
    ((⟨["ok".toList], some "ok".toList, none, [⟨some ⟨["ok".toList]⟩⟩]⟩ :
        Response).parts.isEmpty = false →
      pyStrip "ok".toList ≠ []) :=
  (spec_C4_extract_normalization
      ⟨["ok".toList], some "ok".toList, none, [⟨some ⟨["ok".toList]⟩⟩]⟩
      "p".toList).1 "ok".toList (by decide)

theorem rlookup_map_set (name v k : Str) (hk : k ≠ name) (r : Record) :
    rlookup (r.map (fun p => if p.1 = name then (name, v) else p)) k = rlookup r k := by
  induction r with
  | nil => rfl
  | cons p r ih =>
    obtain ⟨k', v'⟩ := p
    simp only [List.map_cons]
    by_cases h : k' = name
    · rw [show (if (k', v').1 = name then (name, v) else (k', v')) = (name, v) from by
        simp [h]]
      simp only [rlookup, ih]
      rw [if_neg (fun hh => hk hh.symm), if_neg (fun hh => hk (h ▸ hh.symm))]
    · rw [show (if (k', v').1 = name then (name, v) else (k', v')) = (k', v') from by
        simp [h]]
      simp only [rlookup, ih]

theorem rlookup_append_single (name v k : Str) (hk : k ≠ name) (r : Record) :
    rlookup (r ++ [(name, v)]) k = rlookup r k := by
  induction r with
  | nil =>
    simp only [List.nil_append, rlookup]
    rw [if_neg (fun hh => hk hh.symm)]
  | cons p r ih =>
    obtain ⟨k', v'⟩ := p
    have ih' : rlookup (r.append [(name, v)]) k = rlookup r k := ih
    simp only [List.cons_append, rlookup, ih']

theorem rlookup_setKey (r : Record) (name v k : Str) (hk : k ≠ name) :
    rlookup (setKey r name v) k = rlookup r k := by
  unfold setKey
  by_cases h : (rlookup r name).isSome <;> simp [h]
  · exact rlookup_map_set name v k hk r
  · exact rlookup_append_single name v k hk r

/-- C9: the column-assignment step touches only the column named
`new_column_name`: it keeps the column list unchanged when the name already
exists (overwriting that column's values in place) and otherwise appends the
name as the last column; for every other key, every row's value is
unchanged; and the saved CSV emits the header as the table's columns in
order with no index column prepended. -/
theorem spec_C9_frame_effect (t : Table) (name : Str) (vals : List Str) :
    ((setColumn t name vals).cols =
      if t.cols.contains name then t.cols else t.cols ++ [name]) ∧
    (∀ r v k, k ≠ name → rlookup (setKey r name v) k = rlookup r k) ∧
    (∀ (i : Nat) (r : Record) (v : Str), t.rows[i]? = some r → vals[i]? = some v →
      (setColumn t name vals).rows[i]? = some (setKey r name v)) ∧
    (saveCsvLines (setColumn t name vals)).head? = some (setColumn t name vals).cols := by
  refine ⟨rfl, fun r v k hk => rlookup_setKey r name v k hk, fun i r v hr hv => ?_, rfl⟩
  have hz : (t.rows.zip vals)[i]? = some (r, v) :=
    List.getElem?_zip_eq_some.mpr ⟨hr, hv⟩
  simp [setColumn, List.getElem?_map, hz]

/-- C9, witness: assigning column `b` leaves the value of column `a`
unchanged. -/
theorem spec_C9_witness :
    rlookup (setKey [("a".toList, "1".toList)] "b".toList "2".toList) "a".toList =
      rlookup [("a".toList, "1".toList)] "a".toList :=
  (spec_C9_frame_effect ⟨["a".toList], [[("a".toList, "1".toList)]]⟩ "b".toList
      ["2".toList]).2.1 [("a".toList, "1".toList)] "2".toList "a".toList
    (by decide)

theorem endsWithLower_append (p ext suffix : Str) (h : pyLower ext = suffix) :
    endsWithLower (p ++ ext) suffix = true := by
  rw [endsWithLower, List.isSuffixOf_iff_suffix]
  have h' : List.map Char.toLower ext = suffix := h
  rw [pyLower, List.map_append, h']
  exact List.suffix_append (List.map Char.toLower p) suffix

theorem suffix_unique_of_both (l a b : Str) (ha : a <:+ l) (hb : b <:+ l)
    (hab : ¬a <:+ b) (hba : ¬b <:+ a) : False := by
  rcases List.suffix_or_suffix_of_suffix ha hb with h | h
  · exact hab h
  · exact hba h

/-- C10: the extension dispatch of both `load_xls` and `save_xls` lowercases
the path first, so any letter-casing of `.csv` selects delimited text on
load, any letter-casing of `.csv`, `.xlsx`, `.xls` selects that format on
save (and in particular saving to a `.CSV`-suffixed path succeeds as CSV),
and a path without a lowercased `.csv` suffix is loaded as a spreadsheet. -/
theorem spec_C10_case_insensitive_dispatch (p ext : Str) :
    (pyLower ext = csvExt →
      loadFormatOf (p ++ ext) = .csv ∧ saveFormatOf (p ++ ext) = some .csv ∧
      ∀ writeOk, save_xls true (p ++ ext) writeOk =
        if writeOk then .ok .csv else .error .ioErr) ∧
    (pyLower ext = xlsxExt → saveFormatOf (p ++ ext) = some .xlsx) ∧
    (pyLower ext = xlsExt → saveFormatOf (p ++ ext) = some .xls) ∧
    (endsWithLower p csvExt = false → loadFormatOf p = .excel) := by
  refine ⟨fun h => ?_, fun h => ?_, fun h => ?_, fun h => ?_⟩
  · have hcsv := endsWithLower_append p ext csvExt h
    refine ⟨?_, ?_, fun writeOk => ?_⟩
    · simp [loadFormatOf, hcsv]
    · simp [saveFormatOf, hcsv]
    · cases writeOk <;> simp [save_xls, saveTryBody, saveFormatOf, hcsv]
  · have hx := endsWithLower_append p ext xlsxExt h
    have hnc : endsWithLower (p ++ ext) csvExt = false := by
      by_contra hc
      rw [Bool.not_eq_false, endsWithLower, List.isSuffixOf_iff_suffix] at hc
      rw [endsWithLower, List.isSuffixOf_iff_suffix] at hx
      exact suffix_unique_of_both _ _ _ hc hx (by decide) (by decide)
    simp [saveFormatOf, hx, hnc]
  · have hx := endsWithLower_append p ext xlsExt h
    rw [endsWithLower, List.isSuffixOf_iff_suffix] at hx
    have hnc : endsWithLower (p ++ ext) csvExt = false := by
      by_contra hc
      rw [Bool.not_eq_false, endsWithLower, List.isSuffixOf_iff_suffix] at hc
      exact suffix_unique_of_both _ _ _ hc hx (by decide) (by decide)
    have hnx : endsWithLower (p ++ ext) xlsxExt = false := by
      by_contra hc
      rw [Bool.not_eq_false, endsWithLower, List.isSuffixOf_iff_suffix] at hc
      exact suffix_unique_of_both _ _ _ hc hx (by decide) (by decide)
    have hx' : endsWithLower (p ++ ext) xlsExt = true := by
      rw [endsWithLower, List.isSuffixOf_iff_suffix]
      exact hx
    simp [saveFormatOf, hnc, hnx, hx']
  · simp [loadFormatOf, h]

/-- C10, witness: an upper-cased `.CSV` suffix is loaded as CSV, saved as
CSV, and `save_xls` succeeds on it. -/
theorem spec_C10_witness :
    loadFormatOf ("out".toList ++ ".CSV".toList) = .csv ∧
    saveFormatOf ("out".toList ++ ".CSV".toList) = some .csv ∧
    ∀ writeOk, save_xls true ("out".toList ++ ".CSV".toList) writeOk =
      if writeOk then .ok .csv else .error .ioErr :=
  (spec_C10_case_insensitive_dispatch "out".toList ".CSV".toList).1 (by decide)

theorem except_map_error {e : FmtErr} (f : Str → Str) :
    (Except.error e : Except FmtErr Str).map f = .error e := rfl

theorem scan_missing_key_fmt (row : Record) (cs : Str) (m : FmtMode) :
    (∃ n ∈ scanRun cs m, rlookup row n = none) →
    ∃ mk, fmtRun row cs m = .error (.keyNotFound mk) ∧ rlookup row mk = none := by
  induction cs, m using scanRun.induct with
  | case1 m => simp [scanRun]
  | case2 rest ih =>
    intro h
    simp only [scanRun] at h
    obtain ⟨mk, hmk, hm⟩ := ih h
    exact ⟨mk, by simp [fmtRun, hmk, except_map_error], hm⟩
  | case3 rest ih =>
    intro h
    simp only [scanRun] at h
    obtain ⟨mk, hmk, hm⟩ := ih h
    exact ⟨mk, by simp [fmtRun, hmk, except_map_error], hm⟩
  | case4 rest hne ih =>
    intro h
    rw [scanRun.eq_4 rest hne] at h
    obtain ⟨mk, hmk, hm⟩ := ih h
    exact ⟨mk, by rw [fmtRun.eq_5 row rest hne]; exact hmk, hm⟩
  | case5 tail hne =>
    intro h
    rw [scanRun.eq_5 tail hne] at h
    simp at h
  | case6 head rest h1 h2 h3 h4 ih =>
    intro h
    rw [scanRun.eq_6 head rest h1 h2 h3 h4] at h
    obtain ⟨mk, hmk, hm⟩ := ih h
    refine ⟨mk, ?_, hm⟩
    rw [fmtRun.eq_7 row head rest h1 h2 h3 h4, hmk]
    rfl
  | case7 rest acc name hauto =>
    intro h
    rw [scanRun.eq_7] at h
    rw [if_pos hauto] at h
    simp at h
  | case8 rest acc name hauto ih =>
    intro h
    rw [scanRun.eq_7, if_neg hauto] at h
    cases hl : rlookup row (List.reverse acc) with
    | none =>
      refine ⟨List.reverse acc, ?_, hl⟩
      rw [fmtRun.eq_8, if_neg hauto, hl]
    | some v =>
      obtain ⟨n, hn, hmiss⟩ := h
      rcases List.mem_cons.mp hn with rfl | hn'
      · rw [hl] at hmiss
        cases hmiss
      · obtain ⟨mk, hmk, hm⟩ := ih ⟨n, hn', hmiss⟩
        refine ⟨mk, ?_, hm⟩
        rw [fmtRun.eq_8, if_neg hauto, hl, hmk]
        rfl
  | case9 c rest acc hc hstop =>
    intro h
    rw [scanRun.eq_8 c rest acc hc, if_pos hstop] at h
    simp at h
  | case10 c rest acc hc hstop ih =>
    intro h
    rw [scanRun.eq_8 c rest acc hc, if_neg hstop] at h
    obtain ⟨mk, hmk, hm⟩ := ih h
    refine ⟨mk, ?_, hm⟩
    rw [fmtRun.eq_9 row c rest acc hc, if_neg hstop]
    exact hmk

/-- C8: for every template referencing a placeholder name that is not a
column of the row, the rendering step of `generate_text_from_row` raises the
missing-placeholder `KeyError` - either from the pre-check of lines 55-57 or
re-raised from `format` at lines 60-61 - and never substitutes a default. -/
theorem spec_C8_missing_placeholder_keyerror (tmpl : Str) (row : Record) (n : Str)
    (hmem : n ∈ scanNames tmpl) (hmiss : rlookup row n = none) :
    renderStep tmpl row = .error .keyErr := by
  unfold renderStep
  cases hfm : firstMissingKey tmpl row with
  | some k => rfl
  | none =>
    obtain ⟨mk, hfmt, _⟩ := scan_missing_key_fmt row tmpl .text ⟨n, hmem, hmiss⟩
    simp [pyFormat, hfmt]

/-- C8, witness: a template naming an absent column makes the rendering step
raise `KeyError`. -/
theorem spec_C8_witness :
    renderStep "Summarize: \x7bmissing\x7d".toList [("text".toList, "hi".toList)] =
      .error .keyErr :=
  spec_C8_missing_placeholder_keyerror "Summarize: \x7bmissing\x7d".toList
    [("text".toList, "hi".toList)] "missing".toList (by decide) (by decide)

end GenAI
